import Mathlib

set_option autoImplicit false

/-!
Shallow embedding of the two scripts of the `audcog-great-minds` repository:
`audcog_agm_agehistogram.py` (a single-pass JSON → filtered/joined table →
statistics/export pipeline) and `push_to_github.py` (a git-automation script).

JSON values are modelled by the inductive type `JVal`; Python dicts are
association lists in insertion order (JSON objects parsed by `json.load`
have unique keys, and iteration order is insertion order).  Numbers are
modelled as integers (the demographic and measurement payloads relevant to
the specified behaviour are integers or strings; floating point is out of
scope).  Operations that can raise a Python exception are modelled in
`Except PyErr`; the top-level `try/except` of the script maps any such
error to the generic "unexpected error" outcome.
-/

/-- A JSON value, as produced by `json.load`. -/
inductive JVal where
  | null
  | bool (b : Bool)
  | num (n : Int)
  | str (s : String)
  | arr (xs : List JVal)
  | obj (kvs : List (String × JVal))
deriving Repr

/-- A Python dict whose keys are strings (the shape every record in the
script has). -/
abbrev PyDict := List (String × JVal)

/-- Exceptions that the pipeline can raise; the script's top-level
`except Exception` treats them all alike. -/
inductive PyErr where
  | typeError
  | attributeError
deriving Repr, DecidableEq

/-- `d[k]` lookup for a dict with string keys: first binding wins (keys of a
parsed JSON object are unique). -/
def dictGet (d : PyDict) (k : String) : Option JVal :=
  match d with
  | [] => none
  | (k2, v) :: rest => if k2 = k then some v else dictGet rest k

/-- `d.get(k, dflt)` / column access with a default. -/
def dictGetD (d : PyDict) (k : String) (dflt : JVal) : JVal :=
  (dictGet d k).getD dflt

/-- `d[k] = v`: replace the first binding of `k` keeping its position, or
append a new binding at the end — Python dict insertion-order semantics. -/
def dictSet (d : PyDict) (k : String) (v : JVal) : PyDict :=
  match d with
  | [] => [(k, v)]
  | (k1, v1) :: rest => if k1 = k then (k1, v) :: rest else (k1, v1) :: dictSet rest k v

/-- `d.update(upd)`: set every binding of `upd` in order. -/
def dictUpdate (d : PyDict) (upd : PyDict) : PyDict :=
  upd.foldl (fun acc p => dictSet acc p.1 p.2) d

/-- `str(x)` for the scalar values the script prints and filters on.
Containers only flow into skip diagnostics; their rendering is abbreviated
(the claims never inspect it). -/
def pyStr : JVal → String
  | JVal.null => "None"
  | JVal.bool b => if b then "True" else "False"
  | JVal.num n => toString n
  | JVal.str s => s
  | JVal.arr _ => "[...]"
  | JVal.obj _ => "{...}"

/-- Integer value of a digit string (assumes all characters are digits). -/
def digitsVal (cs : List Char) : Int :=
  cs.foldl (fun a c => a * 10 + (Int.ofNat (c.toNat - 48))) 0

/-- `int(s)` on a string: optional surrounding whitespace, optional sign,
then a non-empty run of decimal digits; anything else raises `ValueError`
(returned as `none`). -/
def parseIntString (s : String) : Option Int :=
  let cs := ((s.data.dropWhile Char.isWhitespace).reverse.dropWhile Char.isWhitespace).reverse
  match cs with
  | [] => none
  | c :: rest =>
    if c = '-' then
      if rest ≠ [] ∧ rest.all Char.isDigit then some (-(digitsVal rest)) else none
    else if c = '+' then
      if rest ≠ [] ∧ rest.all Char.isDigit then some (digitsVal rest) else none
    else if (c :: rest).all Char.isDigit then some (digitsVal (c :: rest)) else none

/-- `int(age)` under `try: ... except (ValueError, TypeError)`: integers pass
through, booleans coerce (`int(True) = 1`), strings are parsed, everything
else fails and is mapped to `None`. -/
def pyToInt : JVal → Option Int
  | JVal.num n => some n
  | JVal.bool b => some (if b then 1 else 0)
  | JVal.str s => parseIntString s
  | _ => none

/-- The core of the pattern `AGM\d{4,6}`: literal `AGM` then 4 to 6 digits. -/
def agmCore : List Char → Bool
  | 'A' :: 'G' :: 'M' :: rest =>
    rest.all Char.isDigit && decide (4 ≤ rest.length) && decide (rest.length ≤ 6)
  | _ => false

/-- `re.match(r'^AGM\d{4,6}$', str(pid))`: in Python `$` also matches just
before a single trailing newline. -/
def is_agm_participant (s : String) : Bool :=
  agmCore s.data ||
    (match s.data.getLast? with
     | some c => (c == '\n') && agmCore s.data.dropLast
     | none => false)

/-- The filter predicate of `df_clean[df_clean['participant_id'].apply(is_agm_participant)]`:
the regex applied to the record's `participant_id` field. -/
def isAgmRecord (r : PyDict) : Bool :=
  is_agm_participant (pyStr (dictGetD r "participant_id" JVal.null))

/-- Demographic snapshot found by the age scan (lines 103–123). -/
structure Demog where
  age : Int
  sex : JVal
  computer_type : JVal
  hearing_aids : JVal
  headphones : JVal
deriving Repr

/-- One iteration of the age-scan loop body applied to a single `misc`
timestamp entry: `isinstance(misc_data, dict) and 'age' in misc_data`, then
`int(age)` under the permissive handler; on success the remaining fields are
read from the same entry via `.get(•, 'unknown')`. -/
def usableEntry : String × JVal → Option Demog
  | (_, JVal.obj kvs) =>
    match dictGet kvs "age" with
    | some v =>
      (pyToInt v).map (fun a =>
        { age := a
          sex := dictGetD kvs "sex" (JVal.str "unknown")
          computer_type := dictGetD kvs "comp" (JVal.str "unknown")
          hearing_aids := dictGetD kvs "haids" (JVal.str "unknown")
          headphones := dictGetD kvs "headphones" (JVal.str "unknown") })
    | none => none
  | _ => none

/-- The age-scan loop (lines 109–123): walk the `misc` entries in order,
skip entries that are not dicts, lack an `age` key, or whose age does not
parse; stop (`break`) at the first entry that yields an integer age. -/
def ageScan : List (String × JVal) → Option Demog
  | [] => none
  | (_, md) :: rest =>
    match md with
    | JVal.obj kvs =>
      match dictGet kvs "age" with
      | some v =>
        match pyToInt v with
        | some a =>
          some { age := a
                 sex := dictGetD kvs "sex" (JVal.str "unknown")
                 computer_type := dictGetD kvs "comp" (JVal.str "unknown")
                 hearing_aids := dictGetD kvs "haids" (JVal.str "unknown")
                 headphones := dictGetD kvs "headphones" (JVal.str "unknown") }
        | none => ageScan rest
      | none => ageScan rest
    | _ => ageScan rest

/-- Structural helper for `py_startswith`. -/
def charsPrefix : List Char → List Char → Bool
  | [], _ => true
  | _ :: _, [] => false
  | p :: ps, c :: cs => p == c && charsPrefix ps cs

/-- `s.startswith(pre)` (evaluated structurally on the character lists, so
that concrete runs reduce inside the kernel). -/
def py_startswith (s pre : String) : Bool :=
  charsPrefix pre.data s.data

/-- The seven fixed fields of a joined record (lines 128–136), in insertion
order. -/
def baseRecord (pid ts : String) (d : Demog) : PyDict :=
  [("participant_id", JVal.str pid), ("session_timestamp", JVal.str ts),
   ("age", JVal.num d.age), ("sex", d.sex), ("computer_type", d.computer_type),
   ("hearing_aids", d.hearing_aids), ("headphones", d.headphones)]

/-- The inner join loop over `participant_data['awm'].items()` (lines
127–139): one record per session, `record.update(awm_data)` merged after the
fixed fields; a session value that is not a dict makes `update` raise. -/
def joinSessions (pid : String) (d : Demog) : List (String × JVal) → Except PyErr (List PyDict)
  | [] => Except.ok []
  | (ts, sval) :: rest =>
    match sval with
    | JVal.obj sdata =>
      (joinSessions pid d rest).map (fun tl => dictUpdate (baseRecord pid ts d) sdata :: tl)
    | _ => Except.error PyErr.typeError

/-- The per-participant body of the join loop (lines 98–139).  Note the
guard is `participant_id.startswith('AGM')`, not the full regex, and
`'misc' in participant_data` is evaluated without an `isinstance` check:
for a non-container participant value it raises `TypeError`, and for a
string or list that "contains" `'misc'` the subscript `participant_data['misc']`
raises `TypeError`. -/
def joinOne (pid : String) (pdata : JVal) : Except PyErr (List PyDict) :=
  if py_startswith pid "AGM" then
    match pdata with
    | JVal.obj kvs =>
      match dictGet kvs "misc" with
      | some (JVal.obj miscList) =>
        match ageScan miscList with
        | some d =>
          match dictGet kvs "awm" with
          | some (JVal.obj sessions) => joinSessions pid d sessions
          | some _ => Except.error PyErr.attributeError
          | none => Except.ok []
        | none => Except.ok []
      | some _ => Except.ok []
      | none => Except.ok []
    | JVal.str s =>
      if (s.splitOn "misc").length > 1 then Except.error PyErr.typeError else Except.ok []
    | JVal.arr xs =>
      if xs.any (fun j => match j with | JVal.str t => t == "misc" | _ => false)
      then Except.error PyErr.typeError else Except.ok []
    | _ => Except.error PyErr.typeError
  else Except.ok []

/-- The whole join loop: participants in document order, records concatenated;
the first exception aborts the loop (and, at top level, the run). -/
def agm_records_with_age : List (String × JVal) → Except PyErr (List PyDict)
  | [] => Except.ok []
  | (pid, pdata) :: rest => do
    let h ← joinOne pid pdata
    let t ← agm_records_with_age rest
    Except.ok (h ++ t)

/-- The inner extraction loop over `awm_data.items()` (lines 45–51): the
record literal `{'participant_id': .., 'session_timestamp': .., **session_data}`
lets session keys override the two fixed fields; unpacking a non-mapping
raises. -/
def flattenSessions (pid : String) : List (String × JVal) → Except PyErr (List PyDict)
  | [] => Except.ok []
  | (ts, sval) :: rest =>
    match sval with
    | JVal.obj sdata =>
      (flattenSessions pid rest).map
        (fun tl => dictUpdate [("participant_id", JVal.str pid), ("session_timestamp", JVal.str ts)] sdata :: tl)
    | _ => Except.error PyErr.typeError

/-- The per-participant body of the extraction loop (lines 38–56): non-dict
values and dicts without an `awm` key are recorded as skipped; a non-dict
`awm` value makes `.items()` raise. -/
def extractOne (pid : String) (pdata : JVal) : Except PyErr (List PyDict × List String) :=
  match pdata with
  | JVal.obj kvs =>
    match dictGet kvs "awm" with
    | some (JVal.obj sessions) => (flattenSessions pid sessions).map (fun rs => (rs, []))
    | some _ => Except.error PyErr.attributeError
    | none => Except.ok ([], [pid ++ " (no awm data)"])
  | _ => Except.ok ([], [pid ++ " (sessions: " ++ pyStr pdata ++ ")"])

/-- The whole extraction loop: flattened `awm_records` and the
`skipped_participants` diagnostics, both in document order. -/
def extract_awm_records : List (String × JVal) → Except PyErr (List PyDict × List String)
  | [] => Except.ok ([], [])
  | (pid, pdata) :: rest => do
    let (hr, hs) ← extractOne pid pdata
    let (tr, ts) ← extract_awm_records rest
    Except.ok (hr ++ tr, hs ++ ts)

/-- Column list of `pd.DataFrame(records)`: keys in first-seen order. -/
def dfColumns (records : List PyDict) : List String :=
  records.foldl
    (fun cols r => r.foldl (fun cs kv => if cs.contains kv.1 then cs else cs ++ [kv.1]) cols) []

/-- A pandas DataFrame at the granularity the claims need: named columns and
one row of cells per record (missing cells become NaN, modelled `null`). -/
structure DataFrame where
  columns : List String
  rows : List (List JVal)
deriving Repr

/-- `pd.DataFrame(records)`. -/
def mkDf (records : List PyDict) : DataFrame :=
  let cols := dfColumns records
  { columns := cols, rows := records.map (fun r => cols.map (fun c => dictGetD r c JVal.null)) }

/-- The exported delimited file, at the structural granularity of the spec
(file-formatting details are explicitly out of the spec's scope): a header
line of column names and one line of rendered cells per row.
`index=False`, so no index column is written. -/
structure CsvFile where
  header : List String
  rows : List (List String)
deriving Repr

/-- How `to_csv` renders one cell: missing values become the empty field. -/
def csvCell : JVal → String
  | JVal.null => ""
  | v => pyStr v

/-- `df.to_csv('audcog_agm_with_age.csv', index=False)`. -/
def writeCsv (df : DataFrame) : CsvFile :=
  { header := df.columns, rows := df.rows.map (fun r => r.map csvCell) }

/-- `pd.read_csv` of the exported file: the header line gives the columns,
every further line one row. -/
def readCsv (f : CsvFile) : DataFrame :=
  { columns := f.header, rows := f.rows.map (fun r => r.map JVal.str) }

/-- `dropna` test on an `age` cell: `None`/NaN cells are dropped. -/
def isNaCell : JVal → Bool
  | JVal.null => true
  | _ => false

/-- Result of trying to load and parse `audcog_data.json`. -/
inductive LoadResult where
  | notFound
  | parseError
  | ok (data : JVal)

/-- The observable outcome of one run of the script: which error handler
fired, the skip diagnostics, the three tables it builds, and the exported
file (`none` when `to_csv` never ran). -/
structure PipelineOutput where
  notFoundMsg : Bool
  unexpectedMsg : Bool
  skipped : List String
  df_clean : List PyDict
  df_agm : List PyDict
  joined : List PyDict
  exported : Option CsvFile

def emptyOut : PipelineOutput :=
  { notFoundMsg := false, unexpectedMsg := false, skipped := [],
    df_clean := [], df_agm := [], joined := [], exported := none }

/-- Stages 3–7 of the script, given the participants of `data['audcog-online']`
(lines 34–233).  Every raised exception reaches the top-level
`except Exception` handler: generic message, no tables, no export. -/
def runParts (parts : List (String × JVal)) : PipelineOutput :=
  match extract_awm_records parts with
  | Except.error _ => { emptyOut with unexpectedMsg := true }
  | Except.ok (recs, skip) =>
    if recs.isEmpty then { emptyOut with skipped := skip }
    else
      if (recs.filter isAgmRecord).isEmpty then
        { emptyOut with skipped := skip, df_clean := recs }
      else
        match agm_records_with_age parts with
        | Except.error _ =>
          { emptyOut with unexpectedMsg := true, skipped := skip, df_clean := recs,
                          df_agm := recs.filter isAgmRecord }
        | Except.ok joined =>
          if joined.isEmpty then
            { emptyOut with skipped := skip, df_clean := recs, df_agm := recs.filter isAgmRecord }
          else
            if (joined.filter (fun r => !(isNaCell (dictGetD r "age" JVal.null)))).isEmpty then
              { emptyOut with skipped := skip, df_clean := recs,
                              df_agm := recs.filter isAgmRecord, joined := joined }
            else
              { emptyOut with skipped := skip, df_clean := recs,
                              df_agm := recs.filter isAgmRecord,
                              joined := joined, exported := some (writeCsv (mkDf joined)) }

/-- One full run of `audcog_agm_agehistogram.py`.  `FileNotFoundError` has a
dedicated handler; a parse failure of `json.load`, like every other
exception, reaches the generic handler.  `list(data.keys())` (line 23)
requires the document to be an object, and `audcog_data.items()` (line 38)
requires the value under `audcog-online` to be one. -/
def run (load : LoadResult) : PipelineOutput :=
  match load with
  | LoadResult.notFound => { emptyOut with notFoundMsg := true }
  | LoadResult.parseError => { emptyOut with unexpectedMsg := true }
  | LoadResult.ok data =>
    match data with
    | JVal.obj kvs =>
      match dictGet kvs "audcog-online" with
      | some (JVal.obj parts) => runParts parts
      | some _ => { emptyOut with unexpectedMsg := true }
      | none => emptyOut
    | _ => { emptyOut with unexpectedMsg := true }

/-! ### The git-automation script `push_to_github.py` -/

/-- A Python exception escaping a `subprocess.run` call: `FileNotFoundError`
when the executable is absent, `CalledProcessError` (carrying the `stderr`
attribute, `None` unless the output was captured) on a nonzero exit. -/
inductive PyExc where
  | fileNotFound
  | calledProcessError (stderr : Option String)
deriving Repr, DecidableEq

/-- Lines the script itself prints, as tags; `gitCommandError` carries the
interpolation of `{e.stderr}` into the error report, `committing` the
commit message echoed at line 31. -/
inductive GitMsg where
  | remoteExistsUpdating
  | noRemoteAdding
  | staging
  | staged
  | committing (m : String)
  | committed
  | pushing
  | pushed
  | gitCommandError (shown : String)
  | checkRepoSetup
  | gitNotFound
  | usageLine1
  | usageLine2
deriving Repr, DecidableEq

/-- Outcome of one invocation of the fixed git commands: success of each
command and what a failing command writes on its own stderr. -/
structure GitWorld where
  gitPresent : Bool
  originExists : Bool
  setUrlOk : Bool
  addRemoteOk : Bool
  addOk : Bool
  commitOk : Bool
  pushOk : Bool
  getUrlStderr : String
  setUrlStderr : String
  addRemoteStderr : String
  addStderr : String
  commitStderr : String
  pushStderr : String

/-- `subprocess.run([...], check=True, capture_output=capture)`: raises
`FileNotFoundError` when git is absent; on failure raises
`CalledProcessError` whose `stderr` attribute holds the output only when it
was captured — otherwise the child's stderr is inherited by the terminal
(second component). -/
def subprocessRun (gitPresent ok : Bool) (childStderr : String) (capture : Bool) :
    Except PyExc Unit × List String :=
  if gitPresent then
    if ok then (Except.ok (), [])
    else (Except.error (PyExc.calledProcessError (if capture then some childStderr else none)),
          if capture then [] else [childStderr])
  else (Except.error PyExc.fileNotFound, [])

/-- How an f-string renders the `stderr` attribute: `None` when the output
was not captured. -/
def pyShowOptStr : Option String → String
  | none => "None"
  | some s => s

/-- Terminal-observable trace of one call of the function: the script's own
prints (stdout and stderr merged, in order), the child stderr lines that
reached the terminal uncaptured, and an exception that escaped the
function, if any. -/
structure GitTrace where
  msgs : List GitMsg
  inherited : List String
  uncaught : Option PyExc
deriving Repr, DecidableEq

/-- The second `try` block of `push_to_github` (lines 26–43): stage, commit,
push, none with captured output; `CalledProcessError` is reported with the
`{e.stderr}` f-string, `FileNotFoundError` with the git-not-found message;
both handlers return normally. -/
def gitStageCommitPush (w : GitWorld) (commit_message : String)
    (msgs0 : List GitMsg) (inh0 : List String) : GitTrace :=
  let (ra, ia) := subprocessRun w.gitPresent w.addOk w.addStderr false
  match ra with
  | Except.error (PyExc.calledProcessError st) =>
    { msgs := msgs0 ++ [GitMsg.staging, GitMsg.gitCommandError (pyShowOptStr st), GitMsg.checkRepoSetup],
      inherited := inh0 ++ ia, uncaught := none }
  | Except.error PyExc.fileNotFound =>
    { msgs := msgs0 ++ [GitMsg.staging, GitMsg.gitNotFound], inherited := inh0 ++ ia, uncaught := none }
  | Except.ok _ =>
    let (rc, ic) := subprocessRun w.gitPresent w.commitOk w.commitStderr false
    match rc with
    | Except.error (PyExc.calledProcessError st) =>
      { msgs := msgs0 ++ [GitMsg.staging, GitMsg.staged, GitMsg.committing commit_message,
                          GitMsg.gitCommandError (pyShowOptStr st), GitMsg.checkRepoSetup],
        inherited := inh0 ++ ia ++ ic, uncaught := none }
    | Except.error PyExc.fileNotFound =>
      { msgs := msgs0 ++ [GitMsg.staging, GitMsg.staged, GitMsg.committing commit_message, GitMsg.gitNotFound],
        inherited := inh0 ++ ia ++ ic, uncaught := none }
    | Except.ok _ =>
      let (rp, ip) := subprocessRun w.gitPresent w.pushOk w.pushStderr false
      match rp with
      | Except.error (PyExc.calledProcessError st) =>
        { msgs := msgs0 ++ [GitMsg.staging, GitMsg.staged, GitMsg.committing commit_message,
                            GitMsg.committed, GitMsg.pushing,
                            GitMsg.gitCommandError (pyShowOptStr st), GitMsg.checkRepoSetup],
          inherited := inh0 ++ ia ++ ic ++ ip, uncaught := none }
      | Except.error PyExc.fileNotFound =>
        { msgs := msgs0 ++ [GitMsg.staging, GitMsg.staged, GitMsg.committing commit_message,
                            GitMsg.committed, GitMsg.pushing, GitMsg.gitNotFound],
          inherited := inh0 ++ ia ++ ic ++ ip, uncaught := none }
      | Except.ok _ =>
        { msgs := msgs0 ++ [GitMsg.staging, GitMsg.staged, GitMsg.committing commit_message,
                            GitMsg.committed, GitMsg.pushing, GitMsg.pushed],
          inherited := inh0 ++ ia ++ ic ++ ip, uncaught := none }

/-- `push_to_github(commit_message, remote_url)`.  The first `try` (lines
15–24) catches only `CalledProcessError`: when git itself is absent the
`FileNotFoundError` raised by the very first command escapes the function;
a failure of `git remote add` inside the `except` block escapes too. -/
def push_to_github (w : GitWorld) (commit_message : String) (remote_url : String) : GitTrace :=
  let (r1, i1) := subprocessRun w.gitPresent w.originExists w.getUrlStderr true
  match r1 with
  | Except.error PyExc.fileNotFound =>
    { msgs := [], inherited := i1, uncaught := some PyExc.fileNotFound }
  | Except.error (PyExc.calledProcessError _) =>
    let (r3, i3) := subprocessRun w.gitPresent w.addRemoteOk w.addRemoteStderr false
    match r3 with
    | Except.error e =>
      { msgs := [GitMsg.noRemoteAdding], inherited := i1 ++ i3, uncaught := some e }
    | Except.ok _ =>
      gitStageCommitPush w commit_message [GitMsg.noRemoteAdding] (i1 ++ i3)
  | Except.ok _ =>
    let (r2, i2) := subprocessRun w.gitPresent w.setUrlOk w.setUrlStderr false
    match r2 with
    | Except.error (PyExc.calledProcessError _) =>
      let (r3, i3) := subprocessRun w.gitPresent w.addRemoteOk w.addRemoteStderr false
      match r3 with
      | Except.error e =>
        { msgs := [GitMsg.remoteExistsUpdating, GitMsg.noRemoteAdding],
          inherited := i1 ++ i2 ++ i3, uncaught := some e }
      | Except.ok _ =>
        gitStageCommitPush w commit_message [GitMsg.remoteExistsUpdating, GitMsg.noRemoteAdding]
          (i1 ++ i2 ++ i3)
    | Except.error PyExc.fileNotFound =>
      { msgs := [GitMsg.remoteExistsUpdating], inherited := i1 ++ i2,
        uncaught := some PyExc.fileNotFound }
    | Except.ok _ =>
      gitStageCommitPush w commit_message [GitMsg.remoteExistsUpdating] (i1 ++ i2)

/-- The `__main__` block (lines 45–55): with fewer than three `sys.argv`
entries it prints the usage lines and calls `sys.exit(1)`; otherwise the
last argument is the remote URL and the remaining arguments joined by
spaces form the commit message.  An exception escaping `push_to_github`
terminates the interpreter with status 1 (and a traceback). -/
def pushScriptMain (w : GitWorld) (argv : List String) : Nat × GitTrace :=
  if argv.length > 2 then
    let commit_msg := " ".intercalate ((argv.drop 1).dropLast)
    let remote_url := argv.getLastD ""
    let tr := push_to_github w commit_msg remote_url
    (if tr.uncaught.isSome then 1 else 0, tr)
  else
    (1, { msgs := [GitMsg.usageLine1, GitMsg.usageLine2], inherited := [], uncaught := none })

/-! ### Spec-side definitions used to compare the claims with the code -/

/-- Spec side: the number of measurement-session entries of a participant
(`0` when there is no `awm` mapping). -/
def sessionCount (pdata : JVal) : Nat :=
  match pdata with
  | JVal.obj kvs =>
    match dictGet kvs "awm" with
    | some (JVal.obj sessions) => sessions.length
    | _ => 0
  | _ => 0

/-- Spec side: whether a participant yields a usable age from its `misc`
block. -/
def hasUsableAge (pdata : JVal) : Bool :=
  match pdata with
  | JVal.obj kvs =>
    match dictGet kvs "misc" with
    | some (JVal.obj miscList) => (ageScan miscList).isSome
    | _ => false
  | _ => false

/-- Spec side, claim C2 as frozen: a participant qualifies when it is
selected by the full identifier pattern and yields a usable age; its weight
is its measurement-session count. -/
def spec_regex_qualifying_count (pid : String) (pdata : JVal) : Nat :=
  if is_agm_participant pid && hasUsableAge pdata then sessionCount pdata else 0

/-- The qualifying condition the join loop actually applies: the
`startswith('AGM')` prefix test instead of the full pattern. -/
def qualifying_session_count (pid : String) (pdata : JVal) : Nat :=
  if py_startswith pid "AGM" && hasUsableAge pdata then sessionCount pdata else 0

/-- Whether a session mapping avoids the five demographic column names (so
that `record.update` cannot overwrite them). -/
def sessionKeepsDemogKeys (s : String × JVal) : Bool :=
  match s.2 with
  | JVal.obj sdata =>
    ["age", "sex", "computer_type", "hearing_aids", "headphones"].all
      (fun k => (dictGet sdata k).isNone)
  | _ => false

/-! ### Concrete test documents -/

/-- Participants of the first test document: `AGM1234` matches the full
pattern, `AGM123` (three digits) only the `AGM` prefix; both have a usable
age and one measurement session. -/
def exParts : List (String × JVal) :=
  [("AGM1234",
    JVal.obj [("awm", JVal.obj [("s1", JVal.obj [("score", JVal.num 10)])]),
              ("misc", JVal.obj [("t1", JVal.obj [("age", JVal.str "30")])])]),
   ("AGM123",
    JVal.obj [("awm", JVal.obj [("u1", JVal.obj [("score", JVal.num 7)])]),
              ("misc", JVal.obj [("t1", JVal.obj [("age", JVal.str "50"), ("sex", JVal.str "m")])])])]

/-- The first test document. -/
def exData : JVal := JVal.obj [("audcog-online", JVal.obj exParts)]

/-! ### Helper lemmas about the dictionary operations -/

theorem dictUpdate_nil (d : PyDict) : dictUpdate d [] = d := rfl

theorem dictUpdate_cons (d : PyDict) (k : String) (v : JVal) (rest : PyDict) :
    dictUpdate d ((k, v) :: rest) = dictUpdate (dictSet d k v) rest := rfl

theorem dictGet_dictSet_self (d : PyDict) (k : String) (v : JVal) :
    dictGet (dictSet d k v) k = some v := by
  induction d with
  | nil => simp [dictSet, dictGet]
  | cons p rest ih =>
    obtain ⟨k1, v1⟩ := p
    by_cases h : k1 = k
    · simp [dictSet, dictGet, h]
    · simp [dictSet, dictGet, h, ih]

theorem dictGet_dictSet_ne (d : PyDict) (k k2 : String) (v : JVal) (h : k2 ≠ k) :
    dictGet (dictSet d k v) k2 = dictGet d k2 := by
  induction d with
  | nil => simp [dictSet, dictGet, Ne.symm h]
  | cons p rest ih =>
    obtain ⟨k1, v1⟩ := p
    by_cases h1 : k1 = k
    · subst h1
      simp [dictSet, dictGet, Ne.symm h]
    · simp [dictSet, dictGet, h1, ih]

theorem dictGet_eq_none_iff (d : PyDict) (k : String) :
    dictGet d k = none ↔ k ∉ d.map Prod.fst := by
  induction d with
  | nil => simp [dictGet]
  | cons p rest ih =>
    obtain ⟨k1, v1⟩ := p
    by_cases h : k1 = k
    · subst h
      simp [dictGet]
    · simp [dictGet, h, ih, Ne.symm h]

theorem dictGet_dictUpdate_not_mem (d upd : PyDict) (k : String)
    (h : k ∉ upd.map Prod.fst) :
    dictGet (dictUpdate d upd) k = dictGet d k := by
  induction upd generalizing d with
  | nil => rfl
  | cons p rest ih =>
    obtain ⟨k1, v1⟩ := p
    simp only [List.map_cons, List.mem_cons, not_or] at h
    rw [dictUpdate_cons, ih _ h.2, dictGet_dictSet_ne _ _ _ _ h.1]

theorem dictGet_dictUpdate_of_nodup (d upd : PyDict) (k : String) (v : JVal)
    (hnd : (upd.map Prod.fst).Nodup) (h : dictGet upd k = some v) :
    dictGet (dictUpdate d upd) k = some v := by
  induction upd generalizing d with
  | nil => simp [dictGet] at h
  | cons p rest ih =>
    obtain ⟨k1, v1⟩ := p
    simp only [List.map_cons, List.nodup_cons] at hnd
    by_cases hk : k1 = k
    · subst hk
      simp only [dictGet, if_pos rfl] at h
      rw [dictUpdate_cons, dictGet_dictUpdate_not_mem _ _ _ hnd.1, dictGet_dictSet_self]
      exact h
    · simp only [dictGet, if_neg hk] at h
      rw [dictUpdate_cons]
      exact ih (dictSet d k1 v1) hnd.2 h

/-! ### Helper lemmas about the age scan and the join loop -/

theorem ageScan_eq_findSome (l : List (String × JVal)) :
    ageScan l = l.findSome? usableEntry := by
  induction l with
  | nil => rfl
  | cons p rest ih =>
    obtain ⟨ts, md⟩ := p
    cases md with
    | obj kvs =>
      cases hv : dictGet kvs "age" with
      | none => simp [ageScan, List.findSome?_cons, usableEntry, hv, ih]
      | some v =>
        cases ha : pyToInt v with
        | none => simp [ageScan, List.findSome?_cons, usableEntry, hv, ha, ih]
        | some a => simp [ageScan, List.findSome?_cons, usableEntry, hv, ha]
    | null => simp [ageScan, List.findSome?_cons, usableEntry, ih]
    | bool b => simp [ageScan, List.findSome?_cons, usableEntry, ih]
    | num n => simp [ageScan, List.findSome?_cons, usableEntry, ih]
    | str s => simp [ageScan, List.findSome?_cons, usableEntry, ih]
    | arr xs => simp [ageScan, List.findSome?_cons, usableEntry, ih]

theorem joinSessions_ok_length (pid : String) (d : Demog) (ss : List (String × JVal))
    (recs : List PyDict) (h : joinSessions pid d ss = Except.ok recs) :
    recs.length = ss.length := by
  induction ss generalizing recs with
  | nil =>
    simp only [joinSessions] at h
    cases h
    rfl
  | cons p rest ih =>
    obtain ⟨ts, sval⟩ := p
    cases sval with
    | obj sdata =>
      simp only [joinSessions] at h
      cases hr : joinSessions pid d rest with
      | error e => rw [hr] at h; simp [Except.map] at h
      | ok tl =>
        rw [hr] at h
        simp only [Except.map] at h
        cases h
        simp [ih tl hr]
    | null => simp [joinSessions] at h
    | bool b => simp [joinSessions] at h
    | num n => simp [joinSessions] at h
    | str s => simp [joinSessions] at h
    | arr xs => simp [joinSessions] at h

theorem joinOne_ok_length (pid : String) (pdata : JVal) (recs : List PyDict)
    (h : joinOne pid pdata = Except.ok recs) :
    recs.length = qualifying_session_count pid pdata := by
  unfold joinOne at h
  split at h
  · rename_i hp
    split at h
    next kvs =>
      split at h
      next miscList hmisc =>
        split at h
        next dg hage =>
          split at h
          next sessions hawm =>
            have hl := joinSessions_ok_length pid dg sessions recs h
            simp [qualifying_session_count, hasUsableAge, sessionCount, hp, hmisc, hage, hawm, hl]
          next aval hno hawm => exact Except.noConfusion h
          next hawm =>
            cases h
            simp [qualifying_session_count, hasUsableAge, sessionCount, hp, hmisc, hage, hawm]
        next hage =>
          cases h
          simp [qualifying_session_count, hasUsableAge, hp, hmisc, hage]
      next mval hno hmisc =>
        cases h
        cases mval with
        | obj l => exact (hno l rfl).elim
        | null => simp [qualifying_session_count, hasUsableAge, hp, hmisc]
        | bool b => simp [qualifying_session_count, hasUsableAge, hp, hmisc]
        | num n => simp [qualifying_session_count, hasUsableAge, hp, hmisc]
        | str s => simp [qualifying_session_count, hasUsableAge, hp, hmisc]
        | arr xs => simp [qualifying_session_count, hasUsableAge, hp, hmisc]
      next hmisc =>
        cases h
        simp [qualifying_session_count, hasUsableAge, hp, hmisc]
    next s =>
      split at h
      · exact Except.noConfusion h
      · cases h
        simp [qualifying_session_count, hasUsableAge]
    next xs =>
      split at h
      · exact Except.noConfusion h
      · cases h
        simp [qualifying_session_count, hasUsableAge]
    next => exact Except.noConfusion h
  · rename_i hp
    cases h
    simp [qualifying_session_count, Bool.of_not_eq_true hp]

theorem joinOne_not_agm (pid : String) (pdata : JVal)
    (h : py_startswith pid "AGM" = false) :
    joinOne pid pdata = Except.ok [] := by
  unfold joinOne
  rw [if_neg]
  simp [h]

theorem agm_records_with_age_ok_length (parts : List (String × JVal)) (recs : List PyDict)
    (h : agm_records_with_age parts = Except.ok recs) :
    recs.length = (parts.map (fun p => qualifying_session_count p.1 p.2)).sum := by
  induction parts generalizing recs with
  | nil =>
    simp only [agm_records_with_age] at h
    cases h
    rfl
  | cons p rest ih =>
    obtain ⟨pid, pdata⟩ := p
    simp only [agm_records_with_age] at h
    cases h1 : joinOne pid pdata with
    | error e => rw [h1] at h; exact Except.noConfusion h
    | ok hd =>
      rw [h1] at h
      cases h2 : agm_records_with_age rest with
      | error e => rw [h2] at h; exact Except.noConfusion h
      | ok tl =>
        rw [h2] at h
        simp only [bind, Except.bind] at h
        cases h
        simp [List.length_append, joinOne_ok_length pid pdata hd h1, ih tl h2]

theorem runParts_structure (parts : List (String × JVal)) :
    ((runParts parts).df_agm = (runParts parts).df_clean.filter isAgmRecord) ∧
    ((runParts parts).df_agm = [] → (runParts parts).joined = [] ∧ (runParts parts).exported = none) ∧
    (∀ csv, (runParts parts).exported = some csv →
      csv = writeCsv (mkDf ((runParts parts).joined))) := by
  unfold runParts
  split
  · exact ⟨rfl, fun _ => ⟨rfl, rfl⟩, fun _ hc => Option.noConfusion hc⟩
  next recs skip heq =>
    split
    · exact ⟨rfl, fun _ => ⟨rfl, rfl⟩, fun _ hc => Option.noConfusion hc⟩
    next hne =>
      split
      next hd =>
        exact ⟨(List.isEmpty_iff.mp hd).symm, fun _ => ⟨rfl, rfl⟩, fun _ hc => Option.noConfusion hc⟩
      next hd =>
        have hdne : recs.filter isAgmRecord ≠ [] := fun hh => hd (by simp [hh])
        split
        · exact ⟨rfl, fun he => absurd he hdne, fun _ hc => Option.noConfusion hc⟩
        next joined hj =>
          split
          next hje => exact ⟨rfl, fun _ => ⟨rfl, rfl⟩, fun _ hc => Option.noConfusion hc⟩
          next hje =>
            split
            · exact ⟨rfl, fun he => absurd he hdne, fun _ hc => Option.noConfusion hc⟩
            · refine ⟨rfl, fun he => absurd he hdne, fun csv hc => ?_⟩
              cases hc
              rfl

theorem run_structure (load : LoadResult) :
    ((run load).df_agm = (run load).df_clean.filter isAgmRecord) ∧
    ((run load).df_agm = [] → (run load).joined = [] ∧ (run load).exported = none) ∧
    (∀ csv, (run load).exported = some csv →
      csv = writeCsv (mkDf ((run load).joined))) := by
  cases load with
  | notFound => exact ⟨rfl, fun _ => ⟨rfl, rfl⟩, fun _ hc => Option.noConfusion hc⟩
  | parseError => exact ⟨rfl, fun _ => ⟨rfl, rfl⟩, fun _ hc => Option.noConfusion hc⟩
  | ok data =>
    cases data with
    | obj kvs =>
      simp only [run]
      split
      next parts heq => exact runParts_structure parts
      next v hno heq => exact ⟨rfl, fun _ => ⟨rfl, rfl⟩, fun _ hc => Option.noConfusion hc⟩
      next heq => exact ⟨rfl, fun _ => ⟨rfl, rfl⟩, fun _ hc => Option.noConfusion hc⟩
    | null => exact ⟨rfl, fun _ => ⟨rfl, rfl⟩, fun _ hc => Option.noConfusion hc⟩
    | bool b => exact ⟨rfl, fun _ => ⟨rfl, rfl⟩, fun _ hc => Option.noConfusion hc⟩
    | num n => exact ⟨rfl, fun _ => ⟨rfl, rfl⟩, fun _ hc => Option.noConfusion hc⟩
    | str s => exact ⟨rfl, fun _ => ⟨rfl, rfl⟩, fun _ hc => Option.noConfusion hc⟩
    | arr xs => exact ⟨rfl, fun _ => ⟨rfl, rfl⟩, fun _ hc => Option.noConfusion hc⟩

theorem joinSessions_mem_update (pid : String) (d : Demog) (ss : List (String × JVal))
    (recs : List PyDict) (ts : String) (sdata : PyDict)
    (h : joinSessions pid d ss = Except.ok recs)
    (hmem : (ts, JVal.obj sdata) ∈ ss) :
    dictUpdate (baseRecord pid ts d) sdata ∈ recs := by
  induction ss generalizing recs with
  | nil => cases hmem
  | cons p rest ih =>
    obtain ⟨ts1, sval⟩ := p
    cases sval with
    | obj sd1 =>
      simp only [joinSessions] at h
      cases hr : joinSessions pid d rest with
      | error e => rw [hr] at h; exact Except.noConfusion h
      | ok tl =>
        rw [hr] at h
        simp only [Except.map] at h
        cases h
        rcases List.mem_cons.mp hmem with hhd | htl
        · rw [Prod.mk.injEq] at hhd
          obtain ⟨h1, h2⟩ := hhd
          cases h2
          cases h1
          exact List.Mem.head _
        · exact List.Mem.tail _ (ih tl hr htl)
    | null => simp [joinSessions] at h
    | bool b => simp [joinSessions] at h
    | num n => simp [joinSessions] at h
    | str s => simp [joinSessions] at h
    | arr xs => simp [joinSessions] at h

theorem joinSessions_mem_fields (pid : String) (d : Demog) (ss : List (String × JVal))
    (recs : List PyDict)
    (h : joinSessions pid d ss = Except.ok recs)
    (hk : ∀ s ∈ ss, sessionKeepsDemogKeys s = true) :
    ∀ r ∈ recs,
      dictGet r "age" = some (JVal.num d.age) ∧
      dictGet r "sex" = some d.sex ∧
      dictGet r "computer_type" = some d.computer_type ∧
      dictGet r "hearing_aids" = some d.hearing_aids ∧
      dictGet r "headphones" = some d.headphones := by
  induction ss generalizing recs with
  | nil =>
    simp only [joinSessions] at h
    cases h
    intro r hrm
    cases hrm
  | cons p rest ih =>
    obtain ⟨ts1, sval⟩ := p
    cases sval with
    | obj sd1 =>
      simp only [joinSessions] at h
      cases hr : joinSessions pid d rest with
      | error e => rw [hr] at h; exact Except.noConfusion h
      | ok tl =>
        rw [hr] at h
        simp only [Except.map] at h
        cases h
        intro r hrm
        rcases List.mem_cons.mp hrm with hhd | htl
        · subst hhd
          have hks := hk (ts1, JVal.obj sd1) (List.Mem.head _)
          simp only [sessionKeepsDemogKeys, List.all_cons, List.all_nil, Bool.and_true,
                     Bool.and_eq_true, Option.isNone_iff_eq_none] at hks
          obtain ⟨ha, hs, hc, hh, hp⟩ := hks
          have hnm : ∀ k, dictGet sd1 k = none →
              dictGet (dictUpdate (baseRecord pid ts1 d) sd1) k = dictGet (baseRecord pid ts1 d) k :=
            fun k hkn => dictGet_dictUpdate_not_mem _ _ _ ((dictGet_eq_none_iff sd1 k).mp hkn)
          exact ⟨by rw [hnm _ ha]; rfl, by rw [hnm _ hs]; rfl, by rw [hnm _ hc]; rfl,
                 by rw [hnm _ hh]; rfl, by rw [hnm _ hp]; rfl⟩
        · exact ih tl hr (fun s hs => hk s (List.Mem.tail _ hs)) r htl
    | null => simp [joinSessions] at h
    | bool b => simp [joinSessions] at h
    | num n => simp [joinSessions] at h
    | str s => simp [joinSessions] at h
    | arr xs => simp [joinSessions] at h

/-! ### Further concrete test data -/

/-- The flattened record of `AGM1234`'s single session in `exData`. -/
def exFlatRec : PyDict :=
  [("participant_id", JVal.str "AGM1234"), ("session_timestamp", JVal.str "s1"),
   ("score", JVal.num 10)]

/-- The two joined records the join loop produces on `exParts`. -/
def exJoined : List PyDict :=
  [[("participant_id", JVal.str "AGM1234"), ("session_timestamp", JVal.str "s1"),
    ("age", JVal.num 30), ("sex", JVal.str "unknown"), ("computer_type", JVal.str "unknown"),
    ("hearing_aids", JVal.str "unknown"), ("headphones", JVal.str "unknown"),
    ("score", JVal.num 10)],
   [("participant_id", JVal.str "AGM123"), ("session_timestamp", JVal.str "u1"),
    ("age", JVal.num 50), ("sex", JVal.str "m"), ("computer_type", JVal.str "unknown"),
    ("hearing_aids", JVal.str "unknown"), ("headphones", JVal.str "unknown"),
    ("score", JVal.num 7)]]

/-- The demographic entries of the spec's worked example: `t1` has an
unparseable age, `t2` has age "45" and sex "f". -/
def exMisc3 : List (String × JVal) :=
  [("t1", JVal.obj [("age", JVal.str "foo")]),
   ("t2", JVal.obj [("age", JVal.str "45"), ("sex", JVal.str "f")])]

/-- Two measurement sessions for the spec's worked example. -/
def exSessions3 : List (String × JVal) :=
  [("s1", JVal.obj [("trial", JVal.num 1)]), ("s2", JVal.obj [("trial", JVal.num 2)])]

/-- The demographic snapshot the scan must produce on `exMisc3`. -/
def exDemog3 : Demog :=
  { age := 45, sex := JVal.str "f", computer_type := JVal.str "unknown",
    hearing_aids := JVal.str "unknown", headphones := JVal.str "unknown" }

/-- The two joined records of the spec's worked example. -/
def exJoined3 : List PyDict :=
  [[("participant_id", JVal.str "AGM10234"), ("session_timestamp", JVal.str "s1"),
    ("age", JVal.num 45), ("sex", JVal.str "f"), ("computer_type", JVal.str "unknown"),
    ("hearing_aids", JVal.str "unknown"), ("headphones", JVal.str "unknown"),
    ("trial", JVal.num 1)],
   [("participant_id", JVal.str "AGM10234"), ("session_timestamp", JVal.str "s2"),
    ("age", JVal.num 45), ("sex", JVal.str "f"), ("computer_type", JVal.str "unknown"),
    ("hearing_aids", JVal.str "unknown"), ("headphones", JVal.str "unknown"),
    ("trial", JVal.num 2)]]

/-- A participant whose single measurement session itself contains an `age`
key, so the merge overwrites the demographic age. -/
def exParts3 : List (String × JVal) :=
  [("AGM2000", JVal.obj [("awm", JVal.obj [("s1", JVal.obj [("age", JVal.str "nope")])]),
                         ("misc", JVal.obj [("t1", JVal.obj [("age", JVal.str "45")])])])]

def exData3 : JVal := JVal.obj [("audcog-online", JVal.obj exParts3)]

/-- A well-formed `AGM` participant followed by an `AGM`-prefixed
participant whose value is a bare integer. -/
def exPartsCrash : List (String × JVal) :=
  [("AGM1234", JVal.obj [("awm", JVal.obj [("s1", JVal.obj [("score", JVal.num 10)])]),
                         ("misc", JVal.obj [("t1", JVal.obj [("age", JVal.str "30")])])]),
   ("AGMX", JVal.num 7)]

def exDataCrash : JVal := JVal.obj [("audcog-online", JVal.obj exPartsCrash)]

/-- A document whose only participant starts with `AGM` but fails the full
pattern (three digits), despite having a usable age and a session. -/
def exPartsNoMatch : List (String × JVal) :=
  [("AGM123", JVal.obj [("awm", JVal.obj [("u1", JVal.obj [("score", JVal.num 7)])]),
                        ("misc", JVal.obj [("t1", JVal.obj [("age", JVal.str "50")])])])]

def exDataNoMatch : JVal := JVal.obj [("audcog-online", JVal.obj exPartsNoMatch)]

/-- A git environment where every command succeeds. -/
def wPresent : GitWorld :=
  { gitPresent := true, originExists := true, setUrlOk := true, addRemoteOk := true,
    addOk := true, commitOk := true, pushOk := true, getUrlStderr := "", setUrlStderr := "",
    addRemoteStderr := "", addStderr := "", commitStderr := "", pushStderr := "" }

/-- The same environment with git absent from the system. -/
def wAbsent : GitWorld := { wPresent with gitPresent := false }

/-- The same environment where `git commit` fails and writes a diagnostic
on its stderr. -/
def wCommitFail : GitWorld :=
  { wPresent with commitOk := false, commitStderr := "fatal: nothing to commit" }

/-- The demographic snapshot and session used as the C9 witness input. -/
def exDemog9 : Demog :=
  { age := 21, sex := JVal.str "unknown", computer_type := JVal.str "unknown",
    hearing_aids := JVal.str "unknown", headphones := JVal.str "unknown" }

def exSession9 : PyDict := [("age", JVal.str "boom")]

/-- The snapshot the scan produces on the single entry `t1 ↦ {age: "45"}`. -/
def exDemog45 : Demog :=
  { age := 45, sex := JVal.str "unknown", computer_type := JVal.str "unknown",
    hearing_aids := JVal.str "unknown", headphones := JVal.str "unknown" }

/-! ### The claims -/

/-- C1, counterexample to the claim as stated: `AGM123` fails the full
pattern `^AGM\d{4,6}$`, yet the joined (age-annotated) output of the
document `exData` contains a record whose `participant_id` is `AGM123`,
because the join loop selects participants by `startswith('AGM')` only. -/
theorem C1_counterexample :
    is_agm_participant "AGM123" = false ∧
    JVal.str "AGM123" ∈
      ((run (LoadResult.ok exData)).joined.map (fun r => dictGetD r "participant_id" JVal.null)) := by
  refine ⟨rfl, ?_⟩
  have he : (run (LoadResult.ok exData)).joined.map (fun r => dictGetD r "participant_id" JVal.null)
      = [JVal.str "AGM1234", JVal.str "AGM123"] := rfl
  rw [he]
  exact List.Mem.tail _ (List.Mem.head _)

/-- C1 (amended): every record of the filtered set has a `participant_id`
field matching the full pattern — so a participant whose identifier fails
the pattern contributes no record to the filtered output; the joined
output, however, only excludes participants whose identifier fails the
weaker `startswith('AGM')` test (a participant that starts with `AGM` but
fails the full pattern can still contribute joined records). -/
theorem C1_theorem :
    (∀ (load : LoadResult) (r : PyDict), r ∈ (run load).df_agm → isAgmRecord r = true) ∧
    (∀ (pid : String) (pdata : JVal), py_startswith pid "AGM" = false →
      joinOne pid pdata = Except.ok []) := by
  constructor
  · intro load r hr
    rw [(run_structure load).1] at hr
    exact List.of_mem_filter hr
  · exact joinOne_not_agm

/-- C1 witness: on `exData` the filtered set contains exactly the flattened
record of `AGM1234`, whose identifier matches the pattern; and a
participant named `BOB17` (no `AGM` prefix) contributes no joined
records. -/
theorem C1_witness :
    (exFlatRec ∈ (run (LoadResult.ok exData)).df_agm ∧ isAgmRecord exFlatRec = true) ∧
    (py_startswith "BOB17" "AGM" = false ∧ joinOne "BOB17" (JVal.num 3) = Except.ok []) := by
  have he : (run (LoadResult.ok exData)).df_agm = [exFlatRec] := rfl
  have hm : exFlatRec ∈ (run (LoadResult.ok exData)).df_agm := by
    rw [he]
    exact List.Mem.head _
  exact ⟨⟨hm, C1_theorem.1 (LoadResult.ok exData) exFlatRec hm⟩,
         ⟨rfl, C1_theorem.2 "BOB17" (JVal.num 3) rfl⟩⟩

/-- C2, counterexample to the claim as stated: on `exData` the joined
output has 2 records, while the sum over participants selected by the full
identifier pattern (with a usable age) of their session counts is 1 —
`AGM123` fails the pattern but still contributes its session. -/
theorem C2_counterexample :
    (run (LoadResult.ok exData)).joined.length = 2 ∧
    (exParts.map (fun p => spec_regex_qualifying_count p.1 p.2)).sum = 1 ∧
    (run (LoadResult.ok exData)).joined.length ≠
      (exParts.map (fun p => spec_regex_qualifying_count p.1 p.2)).sum :=
  ⟨rfl, rfl, by decide⟩

/-- C2 (amended): whenever the join loop completes without an exception,
the number of joined records equals the sum, over participants whose
identifier starts with `AGM` (not the full pattern) and whose `misc` block
yields a usable age, of their measurement-session counts. -/
theorem C2_theorem (parts : List (String × JVal)) (recs : List PyDict)
    (h : agm_records_with_age parts = Except.ok recs) :
    recs.length = (parts.map (fun p => qualifying_session_count p.1 p.2)).sum :=
  agm_records_with_age_ok_length parts recs h

/-- C2 witness: on `exParts` the join loop succeeds with two records, and
two is indeed the sum of the qualifying session counts. -/
theorem C2_witness :
    agm_records_with_age exParts = Except.ok exJoined ∧
    exJoined.length = (exParts.map (fun p => qualifying_session_count p.1 p.2)).sum :=
  ⟨rfl, C2_theorem exParts exJoined rfl⟩

/-- C3, counterexample to the claim as stated: on `exData3` the first (and
only) demographic entry yields age 45, yet the participant's joined record
carries age `"nope"` — not a whole number at all — because the session's
own `age` measurement field overwrites the demographic age during the
merge. -/
theorem C3_counterexample :
    ageScan [("t1", JVal.obj [("age", JVal.str "45")])] = some exDemog45 ∧
    (run (LoadResult.ok exData3)).joined.map (fun r => dictGetD r "age" JVal.null) =
      [JVal.str "nope"] ∧
    JVal.str "nope" ≠ JVal.num 45 :=
  ⟨rfl, rfl, fun h => nomatch h⟩

/-- C3 (amended): the age scan returns the first demographic entry (in
iteration order) that is a mapping whose `age` value parses as an integer —
unparseable values are skipped and the scan continues, the other
demographic fields are read from that same entry with default `unknown`,
and later entries are never consulted (first-match semantics); if no entry
parses, the participant contributes no joined records; and every joined
record carries that age and those demographic fields provided its
measurement-session mapping does not itself contain one of the demographic
column keys (otherwise the merged measurement value overwrites the field —
see C9). -/
theorem C3_theorem :
    (∀ misc : List (String × JVal), ageScan misc = misc.findSome? usableEntry) ∧
    (∀ (pid : String) (kvs : PyDict) (miscList : List (String × JVal)),
      dictGet kvs "misc" = some (JVal.obj miscList) → ageScan miscList = none →
      joinOne pid (JVal.obj kvs) = Except.ok []) ∧
    (∀ (pid : String) (d : Demog) (ss : List (String × JVal)) (recs : List PyDict),
      joinSessions pid d ss = Except.ok recs →
      (∀ s ∈ ss, sessionKeepsDemogKeys s = true) →
      ∀ r ∈ recs,
        dictGet r "age" = some (JVal.num d.age) ∧
        dictGet r "sex" = some d.sex ∧
        dictGet r "computer_type" = some d.computer_type ∧
        dictGet r "hearing_aids" = some d.hearing_aids ∧
        dictGet r "headphones" = some d.headphones) := by
  refine ⟨ageScan_eq_findSome, ?_, joinSessions_mem_fields⟩
  intro pid kvs miscList hm hs
  unfold joinOne
  by_cases hp : py_startswith pid "AGM"
  · rw [if_pos hp]
    simp [hm, hs]
  · rw [if_neg hp]

/-- C3 witness, the spec's worked example: on demographic entries
`t1 ↦ {age: "foo"}`, `t2 ↦ {age: "45", sex: "f"}` the scan skips `t1`, uses
`t2` (age 45, sex "f"), and two measurement sessions yield exactly two
joined records, each carrying age 45 and sex "f". -/
theorem C3_witness :
    ageScan exMisc3 = exMisc3.findSome? usableEntry ∧
    ageScan exMisc3 = some exDemog3 ∧
    joinSessions "AGM10234" exDemog3 exSessions3 = Except.ok exJoined3 ∧
    exJoined3.length = 2 ∧
    (∀ r ∈ exJoined3,
      dictGet r "age" = some (JVal.num exDemog3.age) ∧
      dictGet r "sex" = some exDemog3.sex ∧
      dictGet r "computer_type" = some exDemog3.computer_type ∧
      dictGet r "hearing_aids" = some exDemog3.hearing_aids ∧
      dictGet r "headphones" = some exDemog3.headphones) :=
  ⟨C3_theorem.1 exMisc3, rfl, rfl, rfl,
   C3_theorem.2.2 "AGM10234" exDemog3 exSessions3 exJoined3 rfl (by decide)⟩

/-- C4 (code bug): on `exDataCrash` the malformed participant `AGMX`
(value: the bare integer 7) is recorded in the skipped list and appears in
no table, but the join loop then evaluates `'misc' in 7` without an
`isinstance` guard, raising `TypeError`: the run aborts through the generic
handler and writes no export — contradicting the claim (and the spec's
best-effort policy, which the extraction loop deliberately implements)
that such an entry never aborts the run. -/
theorem C4_theorem :
    (run (LoadResult.ok exDataCrash)).skipped = ["AGMX (sessions: 7)"] ∧
    agm_records_with_age exPartsCrash = Except.error PyErr.typeError ∧
    (run (LoadResult.ok exDataCrash)).unexpectedMsg = true ∧
    (run (LoadResult.ok exDataCrash)).joined = [] ∧
    (run (LoadResult.ok exDataCrash)).exported = none :=
  ⟨rfl, rfl, rfl, rfl, rfl⟩

/-- C5: if the input file is absent the run takes the dedicated
`FileNotFoundError` handler; if the content is malformed the parse failure
reaches the generic handler; in both cases no export file is written
(`to_csv` runs only at the end of a fully successful pipeline). -/
theorem C5_theorem :
    ((run LoadResult.notFound).notFoundMsg = true ∧
     (run LoadResult.notFound).unexpectedMsg = false ∧
     (run LoadResult.notFound).exported = none) ∧
    ((run LoadResult.parseError).unexpectedMsg = true ∧
     (run LoadResult.parseError).exported = none) :=
  ⟨⟨rfl, rfl, rfl⟩, ⟨rfl, rfl⟩⟩

/-- C6: the git-automation script exits with a non-zero status when the
commit message and remote URL are not both supplied (fewer than three
`sys.argv` entries), and also when the git tool is absent — in the latter
case because the very first `subprocess.run` raises `FileNotFoundError`
inside a `try` that catches only `CalledProcessError`, so the exception
escapes and the interpreter exits with status 1. -/
theorem C6_theorem (w : GitWorld) (argv : List String) :
    (argv.length ≤ 2 → (pushScriptMain w argv).1 ≠ 0) ∧
    (w.gitPresent = false → (pushScriptMain w argv).1 ≠ 0) := by
  constructor
  · intro hlen
    unfold pushScriptMain
    rw [if_neg (by omega)]
    simp
  · intro hg
    unfold pushScriptMain
    by_cases hlen : argv.length > 2
    · rw [if_pos hlen]
      simp [push_to_github, subprocessRun, hg]
    · rw [if_neg hlen]
      simp

/-- C6 witness: with only the program name the script exits 1; with both
arguments supplied but git absent it also exits non-zero. -/
theorem C6_witness :
    (["push_to_github.py"].length ≤ 2 ∧ (pushScriptMain wPresent ["push_to_github.py"]).1 ≠ 0) ∧
    (wAbsent.gitPresent = false ∧
     (pushScriptMain wAbsent
       ["push_to_github.py", "initial commit", "https://example.test/r.git"]).1 ≠ 0) :=
  ⟨⟨by decide, (C6_theorem wPresent ["push_to_github.py"]).1 (by decide)⟩,
   ⟨rfl, (C6_theorem wAbsent
       ["push_to_github.py", "initial commit", "https://example.test/r.git"]).2 rfl⟩⟩

/-- C7 (code bug): when `git commit` fails, the script's error report
interpolates `e.stderr`, but none of the stage/commit/push commands is run
with `capture_output=True`, so `e.stderr` is `None` and the script prints
`An error occurred while running a git command: None` — it never contains
the command's failure output.  (The failing command's own stderr reaches
the terminal only because it is inherited, not through the script's
report.) -/
theorem C7_theorem :
    (push_to_github wCommitFail "update results" "https://example.test/r.git").msgs =
      [GitMsg.remoteExistsUpdating, GitMsg.staging, GitMsg.staged,
       GitMsg.committing "update results", GitMsg.gitCommandError "None", GitMsg.checkRepoSetup] ∧
    wCommitFail.commitStderr = "fatal: nothing to commit" ∧
    GitMsg.gitCommandError "fatal: nothing to commit" ∉
      (push_to_github wCommitFail "update results" "https://example.test/r.git").msgs ∧
    (push_to_github wCommitFail "update results" "https://example.test/r.git").inherited =
      ["fatal: nothing to commit"] :=
  ⟨rfl, rfl, by decide, rfl⟩

/-- C8: whenever the run writes the export file, re-reading it yields a
table with the same row count and the same column list (hence the same
column set) as the in-memory joined table that was written. -/
theorem C8_theorem (load : LoadResult) (csv : CsvFile)
    (h : (run load).exported = some csv) :
    (readCsv csv).rows.length = (run load).joined.length ∧
    (readCsv csv).columns = dfColumns ((run load).joined) := by
  have hshape := (run_structure load).2.2 csv h
  subst hshape
  refine ⟨?_, rfl⟩
  simp [readCsv, writeCsv, mkDf]

/-- C8 witness: the round trip on the export produced by `exData`. -/
theorem C8_witness :
    (readCsv (writeCsv (mkDf ((run (LoadResult.ok exData)).joined)))).rows.length =
      (run (LoadResult.ok exData)).joined.length ∧
    (readCsv (writeCsv (mkDf ((run (LoadResult.ok exData)).joined)))).columns =
      dfColumns ((run (LoadResult.ok exData)).joined) :=
  C8_theorem (LoadResult.ok exData) _ rfl

/-- C9: when a measurement-session mapping contains a key equal to one of
the fixed joined-record columns, the measurement value overwrites the fixed
field, because `record.update(awm_data)` runs after the fixed fields are
set: the joined record built for that session answers the session's value
at that key, and that record is in the join output. -/
theorem C9_theorem (pid : String) (d : Demog) (ss : List (String × JVal))
    (recs : List PyDict) (ts : String) (sdata : PyDict) (k : String) (v : JVal)
    (hok : joinSessions pid d ss = Except.ok recs)
    (hmem : (ts, JVal.obj sdata) ∈ ss)
    (hnd : (sdata.map Prod.fst).Nodup)
    (hcol : k ∈ (baseRecord pid ts d).map Prod.fst)
    (hv : dictGet sdata k = some v) :
    dictGet (dictUpdate (baseRecord pid ts d) sdata) k = some v ∧
    dictUpdate (baseRecord pid ts d) sdata ∈ recs :=
  ⟨dictGet_dictUpdate_of_nodup _ _ _ _ hnd hv,
   joinSessions_mem_update pid d ss recs ts sdata hok hmem⟩

/-- C9 witness: a session `{age: "boom"}` makes the joined record answer
`"boom"` (the measurement value) at the fixed column `age`. -/
theorem C9_witness :
    dictGet (dictUpdate (baseRecord "AGM9999" "s1" exDemog9) exSession9) "age" =
      some (JVal.str "boom") ∧
    dictUpdate (baseRecord "AGM9999" "s1" exDemog9) exSession9 ∈
      [dictUpdate (baseRecord "AGM9999" "s1" exDemog9) exSession9] :=
  C9_theorem "AGM9999" exDemog9 [("s1", JVal.obj exSession9)]
    [dictUpdate (baseRecord "AGM9999" "s1" exDemog9) exSession9] "s1" exSession9 "age"
    (JVal.str "boom") rfl (List.Mem.head _) (by decide) (by decide) rfl

/-- C10: when no flattened record's participant identifier matches the full
pattern, the joined output is empty and no export file is produced — the
join, statistics and export stages are gated on the filtered set being
non-empty. -/
theorem C10_theorem (load : LoadResult)
    (h : ∀ r ∈ (run load).df_clean, isAgmRecord r = false) :
    (run load).joined = [] ∧ (run load).exported = none := by
  have hfil : (run load).df_clean.filter isAgmRecord = [] :=
    List.filter_eq_nil_iff.mpr (fun a ha => by simp [h a ha])
  exact (run_structure load).2.1 ((run_structure load).1.trans hfil)

/-- C10 witness: a document whose only participant (`AGM123`) merely starts
with `AGM`, with a usable age and a measurement session: no flattened
record passes the filter, and the run joins and exports nothing. -/
theorem C10_witness :
    (∀ r ∈ (run (LoadResult.ok exDataNoMatch)).df_clean, isAgmRecord r = false) ∧
    ((run (LoadResult.ok exDataNoMatch)).joined = [] ∧
     (run (LoadResult.ok exDataNoMatch)).exported = none) :=
  ⟨by decide, C10_theorem (LoadResult.ok exDataNoMatch) (by decide)⟩
